import Mathlib

/-!
# The `adal` command line host (`cmd/adal.go`)

A shallow embedding of the single source file of the repository, the command
line host of the token library, together with the properties its
specification states about it.

* Go strings are Lean strings (sequences of Unicode code points).
* The package-level variables and the record of the calls made so far are
  carried in an explicit `World`.
* `log.Fatal*` and `panic` end the run; a function that can reach them returns
  `Except Stop _`.
* The functions of the `adal` library package, `os/user` and `flag` are not part
  of `cmd/adal.go`; their behaviour is a parameter (`Lib`), arbitrary and
  stateful (`σ` is the hidden state of everything outside the host).
-/

namespace Adal

/-! ## Constants and data -/

def deviceMode : String := "device"

def clientSecretMode : String := "secret"

def clientCertMode : String := "cert"

def activeDirectoryEndpoint : String := "https://login.microsoftonline.com/"

/-- The `option` struct: a flag name and its value. -/
structure option where
  name : String
  value : String
  deriving DecidableEq, Repr

/-- A non-nil Go `error`, identified by its message. `nil` is `none : Option GoError`. -/
structure GoError where
  msg : String
  deriving DecidableEq, Repr

/-- The error built by `fmt.Errorf` from a format without verbs. -/
def Errorf (format : String) : GoError := ⟨format⟩

/-- Modelled from the spec: the record type `adal.Token` is declared in the library
package, outside `cmd/adal.go`; its fields are those of the data model (section 3). -/
structure Token where
  accessToken : String
  refreshToken : String
  expiresOn : Nat
  resource : String
  notBefore : Nat
  deriving DecidableEq, Repr

/-- Modelled from the spec: the record type `adal.OAuthConfig` (the directory config of
section 3) is declared in the library package, outside `cmd/adal.go`. -/
structure OAuthConfig where
  authorizeEndpoint : String
  tokenEndpoint : String
  deviceCodeEndpoint : String
  tenantID : String
  deriving DecidableEq, Repr

/-- One call made during a run, with its arguments. The calls of the host functions
`acquireTokenClientSecretFlow` and `saveToken` are recorded on entry; the others are
calls out of the host (`user.Current`, the `adal` package, `log.Printf`). -/
inductive Event where
  | userCurrent
  | NewOAuthConfig (endpoint tenantID : String)
  | acquireTokenClientSecretFlow (oauthConfig : OAuthConfig)
      (appliationID applicationSecret resource : String) (callbakcs : Nat)
  | NewServicePrincipalToken (oauthConfig : OAuthConfig)
      (appliationID applicationSecret resource : String) (callbakcs : Nat)
  | Refresh (spt : Nat)
  | saveToken (spt : Token)
  | SaveToken (path : String) (perm : Nat) (token : Token)
  | logPrintf (line : String)
  deriving DecidableEq, Repr

/-- The package-level variables of `cmd/adal.go`, the hidden state of the outside
world, and the calls made so far (oldest first). -/
structure World (σ : Type) where
  mode : String
  resource : String
  tenantID : String
  applicationID : String
  applicationSecret : String
  certificatePath : String
  tokenCachePath : String
  lib : σ
  trace : List Event

/-- The state in which the Go runtime starts the program: every string variable is
empty and nothing has been called. -/
def World.start {σ : Type} (s : σ) : World σ :=
  ⟨"", "", "", "", "", "", "", s, []⟩

/-- How a run ends early: `log.Fatal*` (message logged, exit status 1) or `panic`. -/
inductive Stop where
  | fatal (message : String)
  | panic (err : GoError)
  deriving DecidableEq, Repr

deriving instance DecidableEq for Except

/-- An `adal.TokenRefreshCallback`: a function of one token returning an error or nil.
It runs in the host, so it acts on the world. -/
abbrev TokenRefreshCallback (σ : Type) := Token → World σ → Option GoError × World σ

/-- An `*adal.ServicePrincipalToken`: the identity the library gave to the controller
and the callbacks it was constructed with. -/
structure ServicePrincipalToken (σ : Type) where
  handle : Nat
  refreshCallbacks : List (TokenRefreshCallback σ)

/-- What one call of `spt.Refresh()` does, seen from the host: it either returns, or
hands a token to the registered callback number `i`, looks at the error the callback
returned and at the state it left, and goes on. -/
inductive RefreshScript (σ : Type) where
  | ret (err : Option GoError) (s : σ)
  | invoke (i : Nat) (token : Token) (s : σ) (k : Option GoError → σ → RefreshScript σ)

/-- The behaviour of everything `cmd/adal.go` calls but does not define. -/
structure Lib (σ : Type) where
  /-- The call `user.Current()`, reduced to the home directory of the user. -/
  userCurrent : σ → Except GoError String × σ
  /-- The call `adal.NewOAuthConfig(endpoint, tenantID)`. -/
  NewOAuthConfig : String → String → σ → Except GoError OAuthConfig × σ
  /-- The call `adal.NewServicePrincipalToken(config, id, secret, resource, callbacks...)`;
  the last argument is the number of callbacks. The result is the new controller. -/
  NewServicePrincipalToken :
    OAuthConfig → String → String → String → Nat → σ → Except GoError Nat × σ
  /-- The call `spt.Refresh()` on the controller with the given identity. -/
  Refresh : Nat → σ → RefreshScript σ
  /-- The call `adal.SaveToken(path, mode, token)`. -/
  SaveToken : String → Nat → Token → σ → Option GoError × σ

/-! ## `strings.TrimSpace` -/

/-- The predicate `unicode.IsSpace` of the Go standard library: the code points with
the Unicode White_Space property. -/
def isSpace (c : Char) : Bool :=
  let r := c.toNat
  r == 0x09 || r == 0x0A || r == 0x0B || r == 0x0C || r == 0x0D || r == 0x20 ||
  r == 0x85 || r == 0xA0 || r == 0x1680 || (0x2000 ≤ r && r ≤ 0x200A) ||
  r == 0x2028 || r == 0x2029 || r == 0x202F || r == 0x205F || r == 0x3000

/-- The function `strings.TrimSpace`: the string without its leading and trailing
white space. -/
def TrimSpace (s : String) : String :=
  ⟨((s.data.dropWhile isSpace).reverse.dropWhile isSpace).reverse⟩

/-! ## The calls out of the host, recorded -/

variable {σ : Type}

/-- Append one call to the record. -/
def World.record (w : World σ) (e : Event) : World σ :=
  { w with trace := w.trace ++ [e] }

/-- The statement `log.Printf(line)`. -/
def logPrintf (line : String) (w : World σ) : World σ :=
  w.record (.logPrintf line)

/-- The call `user.Current()`. -/
def userCurrent (lib : Lib σ) (w : World σ) : Except GoError String × World σ :=
  let r := lib.userCurrent w.lib
  (r.1, { w.record .userCurrent with lib := r.2 })

/-- The call `adal.NewOAuthConfig(endpoint, tenantID)`. -/
def NewOAuthConfig (lib : Lib σ) (endpoint tenantID : String) (w : World σ) :
    Except GoError OAuthConfig × World σ :=
  let r := lib.NewOAuthConfig endpoint tenantID w.lib
  (r.1, { w.record (.NewOAuthConfig endpoint tenantID) with lib := r.2 })

/-- The call `adal.NewServicePrincipalToken(...)`: on success the controller holds the
callbacks it was given. -/
def NewServicePrincipalToken (lib : Lib σ) (oauthConfig : OAuthConfig)
    (appliationID applicationSecret resource : String)
    (callbakcs : List (TokenRefreshCallback σ)) (w : World σ) :
    Except GoError (ServicePrincipalToken σ) × World σ :=
  let r := lib.NewServicePrincipalToken oauthConfig appliationID applicationSecret resource
    callbakcs.length w.lib
  let w1 := { w.record (.NewServicePrincipalToken oauthConfig appliationID applicationSecret
    resource callbakcs.length) with lib := r.2 }
  match r.1 with
  | .error err => (.error err, w1)
  | .ok handle => (.ok ⟨handle, callbakcs⟩, w1)

/-- Run what the library does during one `Refresh`: each `invoke` runs the registered
callback in the host (a number that names no callback runs nothing). -/
def runRefresh (callbacks : List (TokenRefreshCallback σ)) :
    RefreshScript σ → World σ → Option GoError × World σ
  | .ret err s, w => (err, { w with lib := s })
  | .invoke i token s k, w =>
    match callbacks.get? i with
    | some cb =>
      let r := cb token { w with lib := s }
      runRefresh callbacks (k r.1 r.2.lib) r.2
    | none => runRefresh callbacks (k none s) { w with lib := s }

/-- The call `spt.Refresh()`. -/
def Refresh (lib : Lib σ) (spt : ServicePrincipalToken σ) (w : World σ) :
    Option GoError × World σ :=
  let w1 := w.record (.Refresh spt.handle)
  runRefresh spt.refreshCallbacks (lib.Refresh spt.handle w1.lib) w1

/-- The call `adal.SaveToken(path, mode, token)`. -/
def SaveToken (lib : Lib σ) (path : String) (perm : Nat) (token : Token) (w : World σ) :
    Option GoError × World σ :=
  let r := lib.SaveToken path perm token w.lib
  (r.1, { w.record (.SaveToken path perm token) with lib := r.2 })

/-! ## The functions of `cmd/adal.go` -/

/-- The function `checkMondatoryOptions`: the first option whose value is blank ends the
run with a message naming the mode and the option. -/
def checkMondatoryOptions (mode : String) : List option → Except Stop Unit
  | [] => .ok ()
  | o :: options =>
    if TrimSpace o.value = "" then
      .error (.fatal ("Authentication mode '" ++ mode ++ "' requires mandatory option '"
        ++ o.name ++ "'."))
    else checkMondatoryOptions mode options

/-- The function `defaultTokenCachePath`. -/
def defaultTokenCachePath (lib : Lib σ) (w : World σ) : Except Stop String × World σ :=
  match userCurrent lib w with
  | (.error err, w1) => (.error (.fatal err.msg), w1)
  | (.ok homeDir, w1) =>
    let defaultTokenPath := homeDir ++ "/.adal/accessToken.json"
    (.ok defaultTokenPath, w1)

/-- The command line as `flag.Parse` found it: for each flag, the value given, if any. -/
structure Flags where
  mode : Option String
  resource : Option String
  tenantId : Option String
  applicationId : Option String
  secret : Option String
  certificatePath : Option String
  tokenCachePath : Option String
  deriving DecidableEq, Repr

/-- The call `flag.Parse()` when it succeeds: every flag given on the command line is
assigned to its variable; the other variables keep the defaults they were registered
with. -/
def Parse (args : Flags) (w : World σ) : World σ :=
  { w with
    mode := args.mode.getD w.mode
    resource := args.resource.getD w.resource
    tenantID := args.tenantId.getD w.tenantID
    applicationID := args.applicationId.getD w.applicationID
    applicationSecret := args.secret.getD w.applicationSecret
    certificatePath := args.certificatePath.getD w.certificatePath
    tokenCachePath := args.tokenCachePath.getD w.tokenCachePath }

/-- The function `init`: register the flags, each `flag.StringVar` assigning the default
to its variable, parse the command line, trim the mode and check the mandatory options of
the mode. -/
def init (lib : Lib σ) (args : Flags) (w : World σ) : Except Stop Unit × World σ :=
  let w1 : World σ :=
    { w with
      mode := "device"
      resource := ""
      tenantID := ""
      applicationID := ""
      applicationSecret := ""
      certificatePath := "" }
  match defaultTokenCachePath lib w1 with
  | (.error stop, w2) => (.error stop, w2)
  | (.ok defaultPath, w2) =>
    let w3 : World σ := { w2 with tokenCachePath := defaultPath }
    let w4 := Parse args w3
    let w5 : World σ := { w4 with mode := TrimSpace w4.mode }
    if w5.mode = clientSecretMode then
      (checkMondatoryOptions clientSecretMode
        [⟨"resource", w5.resource⟩, ⟨"tenantId", w5.tenantID⟩,
         ⟨"applicationId", w5.applicationID⟩, ⟨"secret", w5.applicationSecret⟩], w5)
    else if w5.mode = clientCertMode then
      (checkMondatoryOptions clientCertMode
        [⟨"resource", w5.resource⟩, ⟨"tenantId", w5.tenantID⟩,
         ⟨"applicationId", w5.applicationID⟩, ⟨"certificatePath", w5.certificatePath⟩], w5)
    else if w5.mode = deviceMode then
      (checkMondatoryOptions deviceMode
        [⟨"resource", w5.resource⟩, ⟨"tenantId", w5.tenantID⟩,
         ⟨"applicationId", w5.applicationID⟩], w5)
    else
      (.error (.fatal "Authentication modes 'secret, 'cert' or 'device' are supported."), w5)

/-- The function `acquireTokenClientSecretFlow`: the pair it returns is the controller
(`none` for nil) and the error (`none` for nil). -/
def acquireTokenClientSecretFlow (lib : Lib σ) (oauthConfig : OAuthConfig)
    (appliationID applicationSecret resource : String)
    (callbakcs : List (TokenRefreshCallback σ)) (w : World σ) :
    (Option (ServicePrincipalToken σ) × Option GoError) × World σ :=
  let w0 := w.record (.acquireTokenClientSecretFlow oauthConfig appliationID
    applicationSecret resource callbakcs.length)
  match NewServicePrincipalToken lib oauthConfig appliationID applicationSecret resource
      callbakcs w0 with
  | (.error err, w1) => ((none, some err), w1)
  | (.ok spt, w1) =>
    let r := Refresh lib spt w1
    ((some spt, r.1), r.2)

/-- The function `saveToken`. -/
def saveToken (lib : Lib σ) (spt : Token) (w : World σ) : Option GoError × World σ :=
  let w0 := w.record (.saveToken spt)
  if w0.tokenCachePath ≠ "" then
    match SaveToken lib w0.tokenCachePath 0o600 spt w0 with
    | (some err, w1) => (some err, w1)
    | (none, w1) =>
      (none, logPrintf ("Acquired token was saved in '" ++ w1.tokenCachePath ++ "' file\n") w1)
  else
    (some (Errorf "empty path for token cache"), w0)

/-- The function `main`. -/
def main (lib : Lib σ) (w : World σ) : Except Stop Unit × World σ :=
  match NewOAuthConfig lib activeDirectoryEndpoint w.tenantID w with
  | (.error err, w1) => (.error (.panic err), w1)
  | (.ok oauthConfig, w1) =>
    let callback : TokenRefreshCallback σ := fun token => saveToken lib token
    let w2 := logPrintf ("Authenticating with mode '" ++ w1.mode ++ "'\n") w1
    let r : Option GoError × World σ :=
      if w2.mode = clientSecretMode then
        let a := acquireTokenClientSecretFlow lib oauthConfig w2.applicationID
          w2.applicationSecret w2.resource [callback] w2
        (a.1.2, a.2)
      else (none, w2)
    match r.1 with
    | some err =>
      (.error (.fatal ("Failed to acquire a token for resource " ++ r.2.resource
        ++ ". Error: " ++ err.msg)), r.2)
    | none => (.ok (), r.2)

/-- The whole program, as the Go runtime runs it: `init`, then `main` if `init`
returned. -/
def program (lib : Lib σ) (args : Flags) (s : σ) : Except Stop Unit × World σ :=
  match init lib args (World.start s) with
  | (.error stop, w) => (.error stop, w)
  | (.ok (), w) => main lib w

/-! ## Reading the record of calls -/

/-- The calls into the token flow of the library: constructing a controller and
refreshing it. -/
def Event.isFlowCall : Event → Bool
  | .NewServicePrincipalToken _ _ _ _ _ => true
  | .Refresh _ => true
  | _ => false

/-- The calls of `adal.NewOAuthConfig`. -/
def Event.isConfigCall : Event → Bool
  | .NewOAuthConfig _ _ => true
  | _ => false

/-- The calls of the host function `acquireTokenClientSecretFlow`. -/
def Event.isAcquire : Event → Bool
  | .acquireTokenClientSecretFlow _ _ _ _ _ => true
  | _ => false

/-- The calls `saveToken` makes, its own entry included. -/
def Event.isPersist : Event → Bool
  | .saveToken _ => true
  | .SaveToken _ _ _ => true
  | .logPrintf _ => true
  | _ => false

/-- The values of the package-level variables, in the order of their declaration. -/
def World.vars (w : World σ) : List String :=
  [w.mode, w.resource, w.tenantID, w.applicationID, w.applicationSecret, w.certificatePath,
   w.tokenCachePath]

/-! ## A sample run

The example scenario of the specification (section 8), used to evaluate the functions
above on concrete inputs. -/

/-- The token the sample provider grants. -/
def sampleToken : Token := ⟨"AT1", "RT1", 3600, "https://example/", 0⟩

/-- A token whose access token is empty. -/
def emptyAccessToken : Token := ⟨"", "RT1", 3600, "https://example/", 0⟩

/-- A library in which every call succeeds: `Refresh` obtains `sampleToken` and hands it
once to the first registered callback, whose error it returns. -/
def sampleLib : Lib Unit where
  userCurrent := fun s => (.ok "/home/u", s)
  NewOAuthConfig := fun endpoint tenantID s =>
    (.ok ⟨endpoint ++ tenantID ++ "/oauth2/authorize", endpoint ++ tenantID ++ "/oauth2/token",
      endpoint ++ tenantID ++ "/oauth2/devicecode", tenantID⟩, s)
  NewServicePrincipalToken := fun _ _ _ _ _ s => (.ok 1, s)
  Refresh := fun _ s => .invoke 0 sampleToken s (fun err s1 => .ret err s1)
  SaveToken := fun _ _ _ s => (none, s)

/-- A library whose provider rejects every request and whose store cannot write. -/
def failingLib : Lib Unit where
  userCurrent := fun s => (.error ⟨"user: Current not implemented"⟩, s)
  NewOAuthConfig := fun _ _ s => (.error ⟨"invalid tenant"⟩, s)
  NewServicePrincipalToken := fun _ _ _ _ _ s => (.error ⟨"invalid credential"⟩, s)
  Refresh := fun _ s => .ret (some ⟨"access denied"⟩) s
  SaveToken := fun _ _ _ s => (some ⟨"permission denied"⟩, s)

/-- The command line of the example scenario. -/
def sampleFlags : Flags where
  mode := some "secret"
  resource := some "https://example/"
  tenantId := some "t1"
  applicationId := some "a1"
  secret := some "s1"
  certificatePath := none
  tokenCachePath := some "/tmp/accessToken.json"

/-- The world of the example scenario once `init` has returned. -/
def sampleWorld : World Unit :=
  ⟨"secret", "https://example/", "t1", "a1", "s1", "", "/tmp/accessToken.json", (), []⟩

/-- The directory config `sampleLib` builds for the tenant `t1`. -/
def sampleConfig : OAuthConfig :=
  ⟨"https://login.microsoftonline.com/t1/oauth2/authorize",
   "https://login.microsoftonline.com/t1/oauth2/token",
   "https://login.microsoftonline.com/t1/oauth2/devicecode", "t1"⟩

/-- The command line of the example scenario with white space around every value. -/
def paddedFlags : Flags where
  mode := some " secret "
  resource := some " https://example/ "
  tenantId := some " t1 "
  applicationId := some " a1 "
  secret := some " s1 "
  certificatePath := none
  tokenCachePath := some "/tmp/accessToken.json"

/-- The directory config `sampleLib` builds for the tenant given by `paddedFlags`. -/
def paddedConfig : OAuthConfig :=
  ⟨"https://login.microsoftonline.com/ t1 /oauth2/authorize",
   "https://login.microsoftonline.com/ t1 /oauth2/token",
   "https://login.microsoftonline.com/ t1 /oauth2/devicecode", " t1 "⟩

/-- A command line whose mode is none of the three: the case of the letters counts. -/
def capitalFlags : Flags where
  mode := some "Secret"
  resource := some "https://example/"
  tenantId := some "t1"
  applicationId := some "a1"
  secret := some "s1"
  certificatePath := none
  tokenCachePath := none

/-- A command line in mode `device` that lacks the tenant. -/
def missingTenantFlags : Flags where
  mode := none
  resource := some "https://example/"
  tenantId := some "  "
  applicationId := some "a1"
  secret := none
  certificatePath := none
  tokenCachePath := none

/-! ## Blank values -/

/-- A list is emptied by trimming at both ends exactly when all of it is trimmed away. -/
theorem dropWhile_both_ends_nil {α : Type} (p : α → Bool) (l : List α) :
    ((l.dropWhile p).reverse.dropWhile p).reverse = [] ↔ ∀ x ∈ l, p x = true := by
  rw [List.reverse_eq_nil_iff, List.dropWhile_eq_nil_iff]
  constructor
  · intro h
    by_cases hl : l.dropWhile p = []
    · exact List.dropWhile_eq_nil_iff.mp hl
    · have hhead := List.head_dropWhile_not p l hl
      have hmem : (l.dropWhile p).head hl ∈ (l.dropWhile p).reverse :=
        List.mem_reverse.mpr (List.head_mem hl)
      rw [h _ hmem] at hhead
      exact absurd hhead (by simp)
  · intro h x hx
    rw [List.dropWhile_eq_nil_iff.mpr h] at hx
    simp at hx

/-- A value is blank (empty after `strings.TrimSpace`) exactly when it consists of white
space only. -/
theorem TrimSpace_eq_empty_iff (s : String) :
    TrimSpace s = "" ↔ ∀ c ∈ s.data, isSpace c = true := by
  rw [← dropWhile_both_ends_nil isSpace s.data]
  unfold TrimSpace
  constructor
  · intro h
    exact congrArg String.data h
  · intro h
    rw [h]

/-! ## `checkMondatoryOptions` -/

/-- The function `checkMondatoryOptions` ends the run exactly when some option is blank. -/
theorem checkMondatoryOptions_error_iff (mode : String) (options : List option) :
    (∃ stop, checkMondatoryOptions mode options = .error stop) ↔
      ∃ o ∈ options, TrimSpace o.value = "" := by
  induction options with
  | nil => simp [checkMondatoryOptions]
  | cons o rest ih =>
    by_cases h : TrimSpace o.value = ""
    · simp [checkMondatoryOptions, h]
    · simp [checkMondatoryOptions, h, ih]

/-- C1: `checkMondatoryOptions` ends the run exactly when some option has a blank value
(empty after trimming white space); it then stops with `log.Fatalf`, never with a panic,
and the message names the mode and the first blank option in list order; when no option
is blank, the empty list included, it returns normally. -/
theorem checkMondatoryOptions_fatal_iff_blank (mode : String) (options : List option) :
    ((∃ stop, checkMondatoryOptions mode options = .error stop) ↔
      ∃ o ∈ options, TrimSpace o.value = "") ∧
    (checkMondatoryOptions mode options = .ok () ↔
      ∀ o ∈ options, TrimSpace o.value ≠ "") ∧
    (∀ stop, checkMondatoryOptions mode options = .error stop →
      ∃ before o after, options = before ++ o :: after ∧
        (∀ b ∈ before, TrimSpace b.value ≠ "") ∧ TrimSpace o.value = "" ∧
        stop = .fatal ("Authentication mode '" ++ mode ++ "' requires mandatory option '"
          ++ o.name ++ "'.")) ∧
    checkMondatoryOptions mode [] = .ok () := by
  refine ⟨checkMondatoryOptions_error_iff mode options, ?_, ?_, rfl⟩
  · induction options with
    | nil => simp [checkMondatoryOptions]
    | cons o rest ih =>
      by_cases h : TrimSpace o.value = ""
      · simp [checkMondatoryOptions, h]
      · simp [checkMondatoryOptions, h, ih]
  · induction options with
    | nil => intro stop h; simp [checkMondatoryOptions] at h
    | cons o rest ih =>
      intro stop hstop
      by_cases h : TrimSpace o.value = ""
      · simp only [checkMondatoryOptions, h, if_true] at hstop
        refine ⟨[], o, rest, rfl, by simp, h, ?_⟩
        exact (Except.error.inj hstop).symm
      · simp only [checkMondatoryOptions, h, if_false] at hstop
        obtain ⟨before, o1, after, heq, hb, ho, hs⟩ := ih stop hstop
        refine ⟨o :: before, o1, after, by simp [heq], ?_, ho, hs⟩
        intro b hb1
        rcases List.mem_cons.mp hb1 with rfl | hb2
        · exact h
        · exact hb b hb2

/-! ## `saveToken` -/

/-- C4: with a non-empty `tokenCachePath`, `saveToken` calls `adal.SaveToken` exactly
once, with that path, the token it was given and the mode 0600: read and write for the
owner (0400 + 0200) and no bit for the group or for others. Anything it does after that
call is a `log.Printf`. -/
theorem saveToken_calls_SaveToken_once (lib : Lib σ) (spt : Token) (w : World σ)
    (hpath : w.tokenCachePath ≠ "") :
    (∃ after, (saveToken lib spt w).2.trace =
        w.trace ++ Event.saveToken spt :: Event.SaveToken w.tokenCachePath 0o600 spt :: after ∧
      ∀ e ∈ after, ∃ line, e = Event.logPrintf line) ∧
    (0o600 : Nat) = 0o400 + 0o200 ∧ (0o600 : Nat) % 0o100 = 0 := by
  refine ⟨?_, by decide, by decide⟩
  rcases h : lib.SaveToken w.tokenCachePath 0o600 spt w.lib with ⟨_ | err, s1⟩
  · refine ⟨[Event.logPrintf
      ("Acquired token was saved in '" ++ w.tokenCachePath ++ "' file\n")], ?_, ?_⟩
    · simp [saveToken, SaveToken, logPrintf, World.record, hpath, h]
    · intro e he
      exact ⟨_, List.mem_singleton.mp he⟩
  · refine ⟨[], ?_, by simp⟩
    simp [saveToken, SaveToken, World.record, hpath, h]

/-- The witness of C4: the sample token saved under `/tmp/accessToken.json`. -/
theorem saveToken_calls_SaveToken_once_witness :
    (∃ after, (saveToken sampleLib sampleToken sampleWorld).2.trace =
        sampleWorld.trace ++ Event.saveToken sampleToken ::
          Event.SaveToken "/tmp/accessToken.json" 0o600 sampleToken :: after ∧
      ∀ e ∈ after, ∃ line, e = Event.logPrintf line) ∧
    (0o600 : Nat) = 0o400 + 0o200 ∧ (0o600 : Nat) % 0o100 = 0 :=
  saveToken_calls_SaveToken_once sampleLib sampleToken sampleWorld (by decide)

/-- C5: `saveToken` returns an error exactly when `tokenCachePath` is the empty string or
`adal.SaveToken` returned an error. With the empty path it calls nothing and returns its
own error; otherwise it returns what `adal.SaveToken` returned, unchanged, and leaves the
state `adal.SaveToken` left; it returns nil exactly when the call was made and
succeeded. -/
theorem saveToken_returns_store_error (lib : Lib σ) (spt : Token) (w : World σ) :
    ((saveToken lib spt w).1 ≠ none ↔
      (w.tokenCachePath = "" ∨ (lib.SaveToken w.tokenCachePath 0o600 spt w.lib).1 ≠ none)) ∧
    (w.tokenCachePath = "" →
      (saveToken lib spt w).1 = some (Errorf "empty path for token cache") ∧
      (saveToken lib spt w).2.trace = w.trace ++ [Event.saveToken spt] ∧
      (saveToken lib spt w).2.lib = w.lib) ∧
    (w.tokenCachePath ≠ "" →
      (saveToken lib spt w).1 = (lib.SaveToken w.tokenCachePath 0o600 spt w.lib).1 ∧
      (saveToken lib spt w).2.lib = (lib.SaveToken w.tokenCachePath 0o600 spt w.lib).2) ∧
    ((saveToken lib spt w).1 = none ↔
      (w.tokenCachePath ≠ "" ∧ (lib.SaveToken w.tokenCachePath 0o600 spt w.lib).1 = none)) := by
  by_cases hpath : w.tokenCachePath = ""
  · simp [saveToken, World.record, hpath]
  · rcases h : lib.SaveToken w.tokenCachePath 0o600 spt w.lib with ⟨_ | err, s1⟩ <;>
      simp [saveToken, SaveToken, logPrintf, World.record, hpath, h]

/-- C6, as the claim states it, fails: with the path `/tmp/accessToken.json`, `saveToken`
hands a token whose access token is empty to `adal.SaveToken`. -/
theorem saveToken_persists_empty_accessToken :
    emptyAccessToken.accessToken = "" ∧
    Event.SaveToken "/tmp/accessToken.json" 0o600 emptyAccessToken ∈
      (saveToken sampleLib emptyAccessToken sampleWorld).2.trace := by
  decide

/-- C6, amended: `saveToken` does not look at the access token. A token whose access token
is empty is handed to `adal.SaveToken` exactly when `tokenCachePath` is not the empty
string, like any other token. -/
theorem saveToken_ignores_accessToken (lib : Lib σ) (spt : Token) (w : World σ)
    (hempty : spt.accessToken = "") :
    spt.accessToken = "" ∧
    ((∃ path perm, Event.SaveToken path perm spt ∈
        (saveToken lib spt w).2.trace.drop w.trace.length) ↔ w.tokenCachePath ≠ "") := by
  refine ⟨hempty, ?_⟩
  by_cases hpath : w.tokenCachePath = ""
  · simp [saveToken, World.record, hpath]
  · rcases h : lib.SaveToken w.tokenCachePath 0o600 spt w.lib with ⟨_ | err, s1⟩ <;>
      simp [saveToken, SaveToken, logPrintf, World.record, hpath, h]

/-- The witness of amended C6: the token with an empty access token of the sample. -/
theorem saveToken_ignores_accessToken_witness :
    emptyAccessToken.accessToken = "" ∧
    ((∃ path perm, Event.SaveToken path perm emptyAccessToken ∈
        (saveToken sampleLib emptyAccessToken sampleWorld).2.trace.drop
          sampleWorld.trace.length) ↔ sampleWorld.tokenCachePath ≠ "") :=
  saveToken_ignores_accessToken sampleLib emptyAccessToken sampleWorld rfl

/-! ## Callbacks during `Refresh` -/

/-- While the library runs a `Refresh`, a part of the record that no callback touches
stays as it was. -/
theorem runRefresh_filter (P : Event → Bool) (callbacks : List (TokenRefreshCallback σ))
    (hcb : ∀ cb ∈ callbacks, ∀ token w, (cb token w).2.trace.filter P = w.trace.filter P)
    (script : RefreshScript σ) (w : World σ) :
    (runRefresh callbacks script w).2.trace.filter P = w.trace.filter P := by
  induction script generalizing w with
  | ret err s => rfl
  | invoke i token s k ih =>
    unfold runRefresh
    cases hget : callbacks.get? i with
    | none => simp only [ih]
    | some cb =>
      simp only [ih]
      exact hcb cb (List.get?_mem hget) token _

/-- While the library runs a `Refresh`, the package-level variables keep their values
when no callback assigns them. -/
theorem runRefresh_vars (callbacks : List (TokenRefreshCallback σ))
    (hcb : ∀ cb ∈ callbacks, ∀ token w, (cb token w).2.vars = w.vars)
    (script : RefreshScript σ) (w : World σ) :
    (runRefresh callbacks script w).2.vars = w.vars := by
  induction script generalizing w with
  | ret err s => rfl
  | invoke i token s k ih =>
    unfold runRefresh
    cases hget : callbacks.get? i with
    | none => simp only [ih]; rfl
    | some cb =>
      simp only [ih]
      exact hcb cb (List.get?_mem hget) token _

/-- The function `saveToken` assigns no package-level variable. -/
theorem saveToken_vars (lib : Lib σ) (spt : Token) (w : World σ) :
    (saveToken lib spt w).2.vars = w.vars := by
  by_cases hpath : w.tokenCachePath = ""
  · simp [saveToken, World.record, World.vars, hpath]
  · rcases h : lib.SaveToken w.tokenCachePath 0o600 spt w.lib with ⟨_ | err, s1⟩ <;>
      simp [saveToken, SaveToken, logPrintf, World.record, World.vars, hpath, h]

/-- The function `saveToken` records only its own entry, `adal.SaveToken` and
`log.Printf`. -/
theorem saveToken_filter (P : Event → Bool) (hP : ∀ e, e.isPersist = true → P e = false)
    (lib : Lib σ) (spt : Token) (w : World σ) :
    (saveToken lib spt w).2.trace.filter P = w.trace.filter P := by
  have h1 := hP (Event.saveToken spt) rfl
  have h2 := hP (Event.SaveToken w.tokenCachePath 0o600 spt) rfl
  have h3 := hP (Event.logPrintf
    ("Acquired token was saved in '" ++ w.tokenCachePath ++ "' file\n")) rfl
  by_cases hpath : w.tokenCachePath = ""
  · simp [saveToken, World.record, hpath, h1]
  · rcases h : lib.SaveToken w.tokenCachePath 0o600 spt w.lib with ⟨_ | err, s1⟩ <;>
      simp [saveToken, SaveToken, logPrintf, World.record, hpath, h, h1, h2, h3]

/-! ## `acquireTokenClientSecretFlow` -/

/-- C8: `acquireTokenClientSecretFlow` calls `adal.NewServicePrincipalToken` once, with the
config, application id, secret, resource and callbacks it was given. If that call fails it
returns nil and the error, and `Refresh` is not called. Otherwise it calls `Refresh` on the
new controller and returns the controller, holding the callbacks in their order, together
with what that one `Refresh` returned, an error included; as long as the callbacks
themselves call neither, the calls into the flow are exactly this one construction and this
one `Refresh`. -/
theorem acquireTokenClientSecretFlow_no_retry (lib : Lib σ) (oauthConfig : OAuthConfig)
    (appliationID applicationSecret resource : String)
    (callbakcs : List (TokenRefreshCallback σ)) (w : World σ) :
    (∀ err s1,
      lib.NewServicePrincipalToken oauthConfig appliationID applicationSecret resource
        callbakcs.length w.lib = (.error err, s1) →
      (acquireTokenClientSecretFlow lib oauthConfig appliationID applicationSecret resource
        callbakcs w).1.1 = none ∧
      (acquireTokenClientSecretFlow lib oauthConfig appliationID applicationSecret resource
        callbakcs w).1.2 = some err ∧
      (acquireTokenClientSecretFlow lib oauthConfig appliationID applicationSecret resource
        callbakcs w).2.trace = w.trace ++
          [Event.acquireTokenClientSecretFlow oauthConfig appliationID applicationSecret
             resource callbakcs.length,
           Event.NewServicePrincipalToken oauthConfig appliationID applicationSecret
             resource callbakcs.length] ∧
      (acquireTokenClientSecretFlow lib oauthConfig appliationID applicationSecret resource
        callbakcs w).2.lib = s1) ∧
    (∀ handle s1,
      lib.NewServicePrincipalToken oauthConfig appliationID applicationSecret resource
        callbakcs.length w.lib = (.ok handle, s1) →
      (acquireTokenClientSecretFlow lib oauthConfig appliationID applicationSecret resource
        callbakcs w).1.1 = some ⟨handle, callbakcs⟩ ∧
      (acquireTokenClientSecretFlow lib oauthConfig appliationID applicationSecret resource
        callbakcs w).1.2 =
        (Refresh lib ⟨handle, callbakcs⟩
          { w with
            lib := s1
            trace := w.trace ++
              [Event.acquireTokenClientSecretFlow oauthConfig appliationID applicationSecret
                 resource callbakcs.length,
               Event.NewServicePrincipalToken oauthConfig appliationID applicationSecret
                 resource callbakcs.length] }).1 ∧
      ((∀ cb ∈ callbakcs, ∀ token w1,
          (cb token w1).2.trace.filter Event.isFlowCall = w1.trace.filter Event.isFlowCall) →
        (acquireTokenClientSecretFlow lib oauthConfig appliationID applicationSecret resource
          callbakcs w).2.trace.filter Event.isFlowCall =
          w.trace.filter Event.isFlowCall ++
            [Event.NewServicePrincipalToken oauthConfig appliationID applicationSecret
               resource callbakcs.length,
             Event.Refresh handle])) := by
  constructor
  · intro err s1 h
    simp [acquireTokenClientSecretFlow, NewServicePrincipalToken, World.record, h]
  · intro handle s1 h
    refine ⟨?_, ?_, ?_⟩
    · simp [acquireTokenClientSecretFlow, NewServicePrincipalToken, World.record, h]
    · simp [acquireTokenClientSecretFlow, NewServicePrincipalToken, World.record, h]
    · intro hquiet
      simp only [acquireTokenClientSecretFlow, NewServicePrincipalToken, World.record, h,
        Refresh]
      rw [runRefresh_filter Event.isFlowCall callbakcs hquiet]
      simp [Event.isFlowCall]

/-- What `acquireTokenClientSecretFlow` adds to a part of the record that no callback
touches: its entry, the construction and, if the construction succeeded, one `Refresh`. -/
theorem acquireTokenClientSecretFlow_filter (P : Event → Bool) (lib : Lib σ)
    (oauthConfig : OAuthConfig) (appliationID applicationSecret resource : String)
    (callbakcs : List (TokenRefreshCallback σ))
    (hcb : ∀ cb ∈ callbakcs, ∀ token w, (cb token w).2.trace.filter P = w.trace.filter P)
    (w : World σ) :
    (acquireTokenClientSecretFlow lib oauthConfig appliationID applicationSecret resource
      callbakcs w).2.trace.filter P =
      (w.trace ++
        Event.acquireTokenClientSecretFlow oauthConfig appliationID applicationSecret
          resource callbakcs.length ::
        Event.NewServicePrincipalToken oauthConfig appliationID applicationSecret
          resource callbakcs.length ::
        (match (lib.NewServicePrincipalToken oauthConfig appliationID applicationSecret
            resource callbakcs.length w.lib).1 with
          | .ok handle => [Event.Refresh handle]
          | .error _ => [])).filter P := by
  rcases h : lib.NewServicePrincipalToken oauthConfig appliationID applicationSecret resource
    callbakcs.length w.lib with ⟨err | handle, s1⟩
  · simp [acquireTokenClientSecretFlow, NewServicePrincipalToken, World.record, h]
  · simp only [acquireTokenClientSecretFlow, NewServicePrincipalToken, World.record, h,
      Refresh]
    rw [runRefresh_filter P callbakcs hcb]
    simp

/-- With callbacks that assign no package-level variable, `acquireTokenClientSecretFlow`
assigns none. -/
theorem acquireTokenClientSecretFlow_vars (lib : Lib σ)
    (oauthConfig : OAuthConfig) (appliationID applicationSecret resource : String)
    (callbakcs : List (TokenRefreshCallback σ))
    (hcb : ∀ cb ∈ callbakcs, ∀ token w, (cb token w).2.vars = w.vars)
    (w : World σ) :
    (acquireTokenClientSecretFlow lib oauthConfig appliationID applicationSecret resource
      callbakcs w).2.vars = w.vars := by
  rcases h : lib.NewServicePrincipalToken oauthConfig appliationID applicationSecret resource
    callbakcs.length w.lib with ⟨err | handle, s1⟩
  · simp [acquireTokenClientSecretFlow, NewServicePrincipalToken, World.record, h,
      World.vars]
  · simp only [acquireTokenClientSecretFlow, NewServicePrincipalToken, World.record, h,
      Refresh]
    rw [runRefresh_vars callbakcs hcb]
    rfl

/-! ## `main` -/

/-- In mode `secret`, with the config built, `main` ends in the world its one call of
`acquireTokenClientSecretFlow` left. -/
theorem main_world_of_secret (lib : Lib σ) (w : World σ) (oauthConfig : OAuthConfig)
    (s1 : σ)
    (hcfg : lib.NewOAuthConfig activeDirectoryEndpoint w.tenantID w.lib = (.ok oauthConfig, s1))
    (hmode : w.mode = clientSecretMode) :
    (main lib w).2 =
      (acquireTokenClientSecretFlow lib oauthConfig w.applicationID w.applicationSecret
        w.resource [fun token => saveToken lib token]
        { w with
          lib := s1
          trace := w.trace ++ [Event.NewOAuthConfig activeDirectoryEndpoint w.tenantID,
            Event.logPrintf ("Authenticating with mode '" ++ w.mode ++ "'\n")] }).2 := by
  simp only [main, NewOAuthConfig, hcfg, logPrintf, World.record, hmode, if_true]
  split <;> simp

/-- The callback of `main` leaves alone every part of the record that holds none of the
calls of `saveToken`. -/
theorem main_callback_filter (P : Event → Bool) (hP : ∀ e, e.isPersist = true → P e = false)
    (lib : Lib σ) :
    ∀ cb ∈ [fun token => saveToken lib token], ∀ (token : Token) (w : World σ),
      (cb token w).2.trace.filter P = w.trace.filter P := by
  intro cb hmem token w
  rw [List.mem_singleton.mp hmem]
  exact saveToken_filter P hP lib token w

/-- C7: once the directory config is built, `main` in mode `secret` calls
`acquireTokenClientSecretFlow` exactly once, with the config, `applicationID`,
`applicationSecret`, `resource` and one callback, and ends in the world that call left; in
mode `device` or `cert` it calls `adal.NewOAuthConfig` and `log.Printf` and nothing else,
and returns without a failure. -/
theorem main_wires_client_secret_only (lib : Lib σ) (w : World σ) (oauthConfig : OAuthConfig)
    (s1 : σ)
    (hcfg : lib.NewOAuthConfig activeDirectoryEndpoint w.tenantID w.lib = (.ok oauthConfig, s1)) :
    (w.mode = clientSecretMode →
      (main lib w).2.trace.filter Event.isAcquire = w.trace.filter Event.isAcquire ++
        [Event.acquireTokenClientSecretFlow oauthConfig w.applicationID w.applicationSecret
          w.resource 1] ∧
      (main lib w).2 =
        (acquireTokenClientSecretFlow lib oauthConfig w.applicationID w.applicationSecret
          w.resource [fun token => saveToken lib token]
          { w with
            lib := s1
            trace := w.trace ++ [Event.NewOAuthConfig activeDirectoryEndpoint w.tenantID,
              Event.logPrintf ("Authenticating with mode '" ++ w.mode ++ "'\n")] }).2) ∧
    (w.mode = deviceMode ∨ w.mode = clientCertMode →
      (main lib w).1 = .ok () ∧
      (main lib w).2.trace = w.trace ++
        [Event.NewOAuthConfig activeDirectoryEndpoint w.tenantID,
         Event.logPrintf ("Authenticating with mode '" ++ w.mode ++ "'\n")] ∧
      (main lib w).2.lib = s1) := by
  constructor
  · intro hmode
    refine ⟨?_, main_world_of_secret lib w oauthConfig s1 hcfg hmode⟩
    rw [main_world_of_secret lib w oauthConfig s1 hcfg hmode,
      acquireTokenClientSecretFlow_filter Event.isAcquire lib oauthConfig _ _ _ _
        (main_callback_filter Event.isAcquire
          (by intro e; cases e <;> simp [Event.isPersist, Event.isAcquire]) lib)]
    cases (lib.NewServicePrincipalToken oauthConfig w.applicationID w.applicationSecret
      w.resource [fun token => saveToken lib token].length s1).1 <;>
      simp [Event.isAcquire]
  · intro hmode
    have hne : w.mode ≠ clientSecretMode := by
      rcases hmode with h | h <;> rw [h] <;> decide
    simp [main, NewOAuthConfig, hcfg, logPrintf, World.record, hne]

/-- The witness of C7: the example scenario, in which `main` makes the one call
`acquireTokenClientSecretFlow(config, "a1", "s1", "https://example/", callback)`. -/
theorem main_wires_client_secret_only_witness :
    (main sampleLib sampleWorld).2.trace.filter Event.isAcquire =
      [Event.acquireTokenClientSecretFlow sampleConfig "a1" "s1" "https://example/" 1] :=
  ((main_wires_client_secret_only sampleLib sampleWorld sampleConfig () rfl).1 rfl).1

/-- C9: if `adal.NewOAuthConfig(activeDirectoryEndpoint, tenantID)` returns an error, `main`
panics with it and has called nothing else. When the config is built, `main` ends with
`log.Fatalf` exactly when the mode is `secret` and `acquireTokenClientSecretFlow` returned
an error; the message is then "Failed to acquire a token" for the resource, with that
error; in every other case `main` returns. -/
theorem main_requires_config (lib : Lib σ) (w : World σ) :
    (∀ err s1,
      lib.NewOAuthConfig activeDirectoryEndpoint w.tenantID w.lib = (.error err, s1) →
      (main lib w).1 = .error (.panic err) ∧
      (main lib w).2.trace = w.trace ++
        [Event.NewOAuthConfig activeDirectoryEndpoint w.tenantID] ∧
      (main lib w).2.lib = s1) ∧
    (∀ oauthConfig s1,
      lib.NewOAuthConfig activeDirectoryEndpoint w.tenantID w.lib = (.ok oauthConfig, s1) →
      ((∃ message, (main lib w).1 = .error (.fatal message)) ↔
        (w.mode = clientSecretMode ∧
          (acquireTokenClientSecretFlow lib oauthConfig w.applicationID w.applicationSecret
            w.resource [fun token => saveToken lib token]
            { w with
              lib := s1
              trace := w.trace ++ [Event.NewOAuthConfig activeDirectoryEndpoint w.tenantID,
                Event.logPrintf ("Authenticating with mode '" ++ w.mode ++ "'\n")] }).1.2
            ≠ none)) ∧
      (∀ stop, (main lib w).1 = .error stop →
        ∃ err,
          (acquireTokenClientSecretFlow lib oauthConfig w.applicationID w.applicationSecret
            w.resource [fun token => saveToken lib token]
            { w with
              lib := s1
              trace := w.trace ++ [Event.NewOAuthConfig activeDirectoryEndpoint w.tenantID,
                Event.logPrintf ("Authenticating with mode '" ++ w.mode ++ "'\n")] }).1.2
            = some err ∧
          stop = .fatal ("Failed to acquire a token for resource " ++ w.resource
            ++ ". Error: " ++ err.msg)) ∧
      ((main lib w).1 = .ok () ∨ ∃ message, (main lib w).1 = .error (.fatal message))) := by
  constructor
  · intro err s1 h
    simp [main, NewOAuthConfig, World.record, h]
  · intro oauthConfig s1 h
    by_cases hmode : w.mode = clientSecretMode
    · have hvars := acquireTokenClientSecretFlow_vars lib oauthConfig w.applicationID
        w.applicationSecret w.resource [fun token => saveToken lib token]
        (by
          intro cb hmem token w1
          rw [List.mem_singleton.mp hmem]
          exact saveToken_vars lib token w1)
        { w with
          lib := s1
          trace := w.trace ++ [Event.NewOAuthConfig activeDirectoryEndpoint w.tenantID,
            Event.logPrintf ("Authenticating with mode '" ++ w.mode ++ "'\n")] }
      have hmain : main lib w =
          (match (acquireTokenClientSecretFlow lib oauthConfig w.applicationID
              w.applicationSecret w.resource [fun token => saveToken lib token]
              { w with
                lib := s1
                trace := w.trace ++ [Event.NewOAuthConfig activeDirectoryEndpoint w.tenantID,
                  Event.logPrintf ("Authenticating with mode '" ++ w.mode ++ "'\n")] }).1.2 with
            | some err =>
              (.error (.fatal ("Failed to acquire a token for resource " ++
                (acquireTokenClientSecretFlow lib oauthConfig w.applicationID
                  w.applicationSecret w.resource [fun token => saveToken lib token]
                  { w with
                    lib := s1
                    trace := w.trace ++
                      [Event.NewOAuthConfig activeDirectoryEndpoint w.tenantID,
                       Event.logPrintf ("Authenticating with mode '" ++ w.mode ++ "'\n")]
                  }).2.resource ++ ". Error: " ++ err.msg)),
                (acquireTokenClientSecretFlow lib oauthConfig w.applicationID
                  w.applicationSecret w.resource [fun token => saveToken lib token]
                  { w with
                    lib := s1
                    trace := w.trace ++
                      [Event.NewOAuthConfig activeDirectoryEndpoint w.tenantID,
                       Event.logPrintf ("Authenticating with mode '" ++ w.mode ++ "'\n")]
                  }).2)
            | none =>
              (.ok (),
                (acquireTokenClientSecretFlow lib oauthConfig w.applicationID
                  w.applicationSecret w.resource [fun token => saveToken lib token]
                  { w with
                    lib := s1
                    trace := w.trace ++
                      [Event.NewOAuthConfig activeDirectoryEndpoint w.tenantID,
                       Event.logPrintf ("Authenticating with mode '" ++ w.mode ++ "'\n")]
                  }).2)) := by
        simp only [main, NewOAuthConfig, h, logPrintf, World.record, List.append_assoc,
          List.singleton_append]
        rw [if_pos hmode]
      rw [hmain]
      generalize acquireTokenClientSecretFlow lib oauthConfig w.applicationID
        w.applicationSecret w.resource [fun token => saveToken lib token]
        { w with
          lib := s1
          trace := w.trace ++ [Event.NewOAuthConfig activeDirectoryEndpoint w.tenantID,
            Event.logPrintf ("Authenticating with mode '" ++ w.mode ++ "'\n")] } = a
        at hvars
      obtain ⟨⟨spt, aerr⟩, w3⟩ := a
      simp only [World.vars, List.cons.injEq, and_true] at hvars
      cases aerr with
      | none => simp [hmode]
      | some err => simp [hmode, hvars.2.1]
    · simp [main, NewOAuthConfig, h, logPrintf, World.record, hmode]

/-! ## `init` -/

/-- The message of `checkMondatoryOptions` is never the message of the `default` case of
the mode switch. -/
theorem mode_message_ne (mode rest : String) :
    "Authentication mode '" ++ mode ++ rest ≠
      "Authentication modes 'secret, 'cert' or 'device' are supported." := by
  intro h
  have h1 := congrArg (fun t => t.data.take 20) h
  simp only [String.data_append, List.append_assoc] at h1
  rw [List.take_append_of_le_length (by decide)] at h1
  revert h1
  decide

/-- The function `checkMondatoryOptions` never ends with the message of the `default` case
of the mode switch. -/
theorem checkMondatoryOptions_ne_default (mode : String) (options : List option) :
    checkMondatoryOptions mode options ≠
      .error (.fatal "Authentication modes 'secret, 'cert' or 'device' are supported.") := by
  induction options with
  | nil => simp [checkMondatoryOptions]
  | cons o rest ih =>
    by_cases h : TrimSpace o.value = ""
    · simp only [checkMondatoryOptions, h, if_true]
      intro hc
      have h2 := Stop.fatal.inj (Except.error.inj hc)
      simp only [String.append_assoc] at h2
      exact mode_message_ne mode _ (by rw [String.append_assoc]; exact h2)
    · simpa [checkMondatoryOptions, h] using ih

/-- When `user.Current` fails, `init` ends with `log.Fatal` of its error, whatever the
command line. -/
theorem init_of_user_error (lib : Lib σ) (args : Flags) (s : σ) (err : GoError) (s1 : σ)
    (huser : lib.userCurrent s = (.error err, s1)) :
    init lib args (World.start s) =
      (.error (.fatal err.msg),
        ⟨"device", "", "", "", "", "", "", s1, [Event.userCurrent]⟩) := by
  simp [init, defaultTokenCachePath, userCurrent, World.start, World.record, huser]

/-- When `user.Current` succeeds, `init` leaves the flags as parsed, the mode trimmed, and
its outcome is that of the mode switch. -/
theorem init_of_user_ok (lib : Lib σ) (args : Flags) (s : σ) (homeDir : String) (s1 : σ)
    (huser : lib.userCurrent s = (.ok homeDir, s1)) :
    init lib args (World.start s) =
      (if TrimSpace (args.mode.getD "device") = clientSecretMode then
          checkMondatoryOptions clientSecretMode
            [⟨"resource", args.resource.getD ""⟩, ⟨"tenantId", args.tenantId.getD ""⟩,
             ⟨"applicationId", args.applicationId.getD ""⟩, ⟨"secret", args.secret.getD ""⟩]
        else if TrimSpace (args.mode.getD "device") = clientCertMode then
          checkMondatoryOptions clientCertMode
            [⟨"resource", args.resource.getD ""⟩, ⟨"tenantId", args.tenantId.getD ""⟩,
             ⟨"applicationId", args.applicationId.getD ""⟩,
             ⟨"certificatePath", args.certificatePath.getD ""⟩]
        else if TrimSpace (args.mode.getD "device") = deviceMode then
          checkMondatoryOptions deviceMode
            [⟨"resource", args.resource.getD ""⟩, ⟨"tenantId", args.tenantId.getD ""⟩,
             ⟨"applicationId", args.applicationId.getD ""⟩]
        else
          .error (.fatal "Authentication modes 'secret, 'cert' or 'device' are supported."),
       ⟨TrimSpace (args.mode.getD "device"), args.resource.getD "", args.tenantId.getD "",
        args.applicationId.getD "", args.secret.getD "", args.certificatePath.getD "",
        args.tokenCachePath.getD (homeDir ++ "/.adal/accessToken.json"), s1,
        [Event.userCurrent]⟩) := by
  simp only [init, defaultTokenCachePath, userCurrent, World.start, World.record, huser,
    List.nil_append, Parse]
  split_ifs <;> rfl

/-- When `init` fails, the program ends there: `main` does not run and `user.Current` is
the only call made. -/
theorem program_of_init_error (lib : Lib σ) (args : Flags) (s : σ) (stop : Stop)
    (hinit : (init lib args (World.start s)).1 = .error stop) :
    (program lib args s).1 = .error stop ∧
    (program lib args s).2.trace = [Event.userCurrent] := by
  rcases huser : lib.userCurrent s with ⟨err | homeDir, s1⟩
  · rw [init_of_user_error lib args s err s1 huser] at hinit
    simp only [program, init_of_user_error lib args s err s1 huser]
    exact ⟨hinit, trivial⟩
  · rw [init_of_user_ok lib args s homeDir s1 huser] at hinit
    simp only [program, init_of_user_ok lib args s homeDir s1 huser]
    simp only at hinit
    rw [hinit]
    exact ⟨rfl, rfl⟩

/-- C2: in each of the modes `secret`, `cert` and `device`, `init` fails exactly when
`user.Current` failed or a mandatory option of the mode is blank: `resource`, `tenantId`,
`applicationId` and, for `secret`, `secret`, for `cert`, `certificatePath`. No other option
takes part. When `init` fails the program ends there, and neither `adal.NewOAuthConfig`
nor `adal.NewServicePrincipalToken`, `Refresh` or `saveToken` was called: the only call
made is `user.Current`. -/
theorem init_checks_mandatory_options (lib : Lib σ) (args : Flags) (s : σ) :
    (TrimSpace (args.mode.getD "device") = clientSecretMode →
      ((∃ stop, (init lib args (World.start s)).1 = .error stop) ↔
        ((∃ err, (lib.userCurrent s).1 = .error err) ∨
          TrimSpace (args.resource.getD "") = "" ∨ TrimSpace (args.tenantId.getD "") = "" ∨
          TrimSpace (args.applicationId.getD "") = "" ∨
          TrimSpace (args.secret.getD "") = ""))) ∧
    (TrimSpace (args.mode.getD "device") = clientCertMode →
      ((∃ stop, (init lib args (World.start s)).1 = .error stop) ↔
        ((∃ err, (lib.userCurrent s).1 = .error err) ∨
          TrimSpace (args.resource.getD "") = "" ∨ TrimSpace (args.tenantId.getD "") = "" ∨
          TrimSpace (args.applicationId.getD "") = "" ∨
          TrimSpace (args.certificatePath.getD "") = ""))) ∧
    (TrimSpace (args.mode.getD "device") = deviceMode →
      ((∃ stop, (init lib args (World.start s)).1 = .error stop) ↔
        ((∃ err, (lib.userCurrent s).1 = .error err) ∨
          TrimSpace (args.resource.getD "") = "" ∨ TrimSpace (args.tenantId.getD "") = "" ∨
          TrimSpace (args.applicationId.getD "") = ""))) ∧
    (∀ stop, (init lib args (World.start s)).1 = .error stop →
      (program lib args s).1 = .error stop ∧
      (program lib args s).2.trace = [Event.userCurrent] ∧
      ∀ e ∈ (program lib args s).2.trace,
        e.isFlowCall = false ∧ e.isAcquire = false ∧ e.isPersist = false ∧
        ∀ endpoint tenantID, e ≠ Event.NewOAuthConfig endpoint tenantID) := by
  have hcs : clientCertMode ≠ clientSecretMode := by decide
  have hds : deviceMode ≠ clientSecretMode := by decide
  have hdc : deviceMode ≠ clientCertMode := by decide
  refine ⟨?_, ?_, ?_, ?_⟩
  · intro hmode
    rcases huser : lib.userCurrent s with ⟨err | homeDir, s1⟩
    · simp [init_of_user_error lib args s err s1 huser]
    · simp [init_of_user_ok lib args s homeDir s1 huser, hmode,
        checkMondatoryOptions_error_iff]
  · intro hmode
    rcases huser : lib.userCurrent s with ⟨err | homeDir, s1⟩
    · simp [init_of_user_error lib args s err s1 huser]
    · simp [init_of_user_ok lib args s homeDir s1 huser, hmode, hcs,
        checkMondatoryOptions_error_iff]
  · intro hmode
    rcases huser : lib.userCurrent s with ⟨err | homeDir, s1⟩
    · simp [init_of_user_error lib args s err s1 huser]
    · simp [init_of_user_ok lib args s homeDir s1 huser, hmode, hds, hdc,
        checkMondatoryOptions_error_iff]
  · intro stop hinit
    have h := program_of_init_error lib args s stop hinit
    refine ⟨h.1, h.2, ?_⟩
    rw [h.2]
    intro e he
    rw [List.mem_singleton.mp he]
    simp [Event.isFlowCall, Event.isAcquire, Event.isPersist]

/-- The witness of C2: in mode `device` with a blank tenant the program ends in `init`,
after the one call `user.Current`. -/
theorem init_checks_mandatory_options_witness :
    (program sampleLib missingTenantFlags ()).1 = .error (.fatal
      "Authentication mode 'device' requires mandatory option 'tenantId'.") ∧
    (program sampleLib missingTenantFlags ()).2.trace = [Event.userCurrent] :=
  ⟨((init_checks_mandatory_options sampleLib missingTenantFlags ()).2.2.2 _
      (by decide)).1,
   ((init_checks_mandatory_options sampleLib missingTenantFlags ()).2.2.2
      (.fatal "Authentication mode 'device' requires mandatory option 'tenantId'.")
      (by decide)).2.1⟩

/-- C3: once the flags are registered (`user.Current` succeeded), `init` gets past the
mode switch exactly when the trimmed mode is `device`, `secret` or `cert`, and its outcome
is then that of `checkMondatoryOptions` for that mode. For every other mode, the empty
string included, `init` ends with the `log.Fatalln` of the `default` case whatever the other
options are, and the program ends there. -/
theorem init_mode_switch_closed (lib : Lib σ) (args : Flags) (s : σ) (homeDir : String)
    (s1 : σ) (huser : lib.userCurrent s = (.ok homeDir, s1)) :
    ((init lib args (World.start s)).1 ≠
        .error (.fatal "Authentication modes 'secret, 'cert' or 'device' are supported.") ↔
      (TrimSpace (args.mode.getD "device") = deviceMode ∨
        TrimSpace (args.mode.getD "device") = clientSecretMode ∨
        TrimSpace (args.mode.getD "device") = clientCertMode)) ∧
    (TrimSpace (args.mode.getD "device") = clientSecretMode →
      (init lib args (World.start s)).1 = checkMondatoryOptions clientSecretMode
        [⟨"resource", args.resource.getD ""⟩, ⟨"tenantId", args.tenantId.getD ""⟩,
         ⟨"applicationId", args.applicationId.getD ""⟩, ⟨"secret", args.secret.getD ""⟩]) ∧
    (TrimSpace (args.mode.getD "device") = clientCertMode →
      (init lib args (World.start s)).1 = checkMondatoryOptions clientCertMode
        [⟨"resource", args.resource.getD ""⟩, ⟨"tenantId", args.tenantId.getD ""⟩,
         ⟨"applicationId", args.applicationId.getD ""⟩,
         ⟨"certificatePath", args.certificatePath.getD ""⟩]) ∧
    (TrimSpace (args.mode.getD "device") = deviceMode →
      (init lib args (World.start s)).1 = checkMondatoryOptions deviceMode
        [⟨"resource", args.resource.getD ""⟩, ⟨"tenantId", args.tenantId.getD ""⟩,
         ⟨"applicationId", args.applicationId.getD ""⟩]) ∧
    (¬(TrimSpace (args.mode.getD "device") = deviceMode ∨
        TrimSpace (args.mode.getD "device") = clientSecretMode ∨
        TrimSpace (args.mode.getD "device") = clientCertMode) →
      (program lib args s).1 =
        .error (.fatal "Authentication modes 'secret, 'cert' or 'device' are supported.") ∧
      (program lib args s).2.trace = [Event.userCurrent]) ∧
    TrimSpace "" ≠ deviceMode ∧ TrimSpace "" ≠ clientSecretMode ∧
      TrimSpace "" ≠ clientCertMode := by
  have hcs : clientCertMode ≠ clientSecretMode := by decide
  have hds : deviceMode ≠ clientSecretMode := by decide
  have hdc : deviceMode ≠ clientCertMode := by decide
  have hsecret : TrimSpace (args.mode.getD "device") = clientSecretMode →
      (init lib args (World.start s)).1 = checkMondatoryOptions clientSecretMode
        [⟨"resource", args.resource.getD ""⟩, ⟨"tenantId", args.tenantId.getD ""⟩,
         ⟨"applicationId", args.applicationId.getD ""⟩, ⟨"secret", args.secret.getD ""⟩] := by
    intro hmode
    simp [init_of_user_ok lib args s homeDir s1 huser, hmode]
  have hcert : TrimSpace (args.mode.getD "device") = clientCertMode →
      (init lib args (World.start s)).1 = checkMondatoryOptions clientCertMode
        [⟨"resource", args.resource.getD ""⟩, ⟨"tenantId", args.tenantId.getD ""⟩,
         ⟨"applicationId", args.applicationId.getD ""⟩,
         ⟨"certificatePath", args.certificatePath.getD ""⟩] := by
    intro hmode
    simp [init_of_user_ok lib args s homeDir s1 huser, hmode, hcs]
  have hdevice : TrimSpace (args.mode.getD "device") = deviceMode →
      (init lib args (World.start s)).1 = checkMondatoryOptions deviceMode
        [⟨"resource", args.resource.getD ""⟩, ⟨"tenantId", args.tenantId.getD ""⟩,
         ⟨"applicationId", args.applicationId.getD ""⟩] := by
    intro hmode
    simp [init_of_user_ok lib args s homeDir s1 huser, hmode, hds, hdc]
  have hother : ¬(TrimSpace (args.mode.getD "device") = deviceMode ∨
        TrimSpace (args.mode.getD "device") = clientSecretMode ∨
        TrimSpace (args.mode.getD "device") = clientCertMode) →
      (init lib args (World.start s)).1 =
        .error (.fatal "Authentication modes 'secret, 'cert' or 'device' are supported.") := by
    intro hmode
    simp only [not_or] at hmode
    simp [init_of_user_ok lib args s homeDir s1 huser, hmode.1, hmode.2.1, hmode.2.2]
  refine ⟨?_, hsecret, hcert, hdevice, ?_, by decide, by decide, by decide⟩
  · constructor
    · intro hne
      by_contra hmode
      exact hne (hother hmode)
    · intro hmode
      rcases hmode with h | h | h
      · rw [hdevice h]
        exact checkMondatoryOptions_ne_default _ _
      · rw [hsecret h]
        exact checkMondatoryOptions_ne_default _ _
      · rw [hcert h]
        exact checkMondatoryOptions_ne_default _ _
  · intro hmode
    exact program_of_init_error lib args s _ (hother hmode)

/-- The witness of C3: the mode `Secret`, with a capital letter, is not accepted, although
every option of the mode `secret` is given. -/
theorem init_mode_switch_closed_witness :
    (program sampleLib capitalFlags ()).1 =
      .error (.fatal "Authentication modes 'secret, 'cert' or 'device' are supported.") ∧
    (program sampleLib capitalFlags ()).2.trace = [Event.userCurrent] :=
  (init_mode_switch_closed sampleLib capitalFlags () "/home/u" () rfl).2.2.2.2.1 (by decide)

/-! ## The values handed to the library -/

/-- The function `main` calls `adal.NewOAuthConfig` once, with `activeDirectoryEndpoint`
and `tenantID`. -/
theorem main_filter_isConfigCall (lib : Lib σ) (w : World σ) :
    (main lib w).2.trace.filter Event.isConfigCall =
      w.trace.filter Event.isConfigCall ++
        [Event.NewOAuthConfig activeDirectoryEndpoint w.tenantID] := by
  rcases hcfg : lib.NewOAuthConfig activeDirectoryEndpoint w.tenantID w.lib with
    ⟨err | oauthConfig, s1⟩
  · simp [main, NewOAuthConfig, World.record, hcfg, Event.isConfigCall]
  · by_cases hmode : w.mode = clientSecretMode
    · rw [main_world_of_secret lib w oauthConfig s1 hcfg hmode,
        acquireTokenClientSecretFlow_filter Event.isConfigCall lib oauthConfig _ _ _ _
          (main_callback_filter Event.isConfigCall
            (by intro e; cases e <;> simp [Event.isPersist, Event.isConfigCall]) lib)]
      cases (lib.NewServicePrincipalToken oauthConfig w.applicationID w.applicationSecret
        w.resource [fun token => saveToken lib token].length s1).1 <;>
        simp [Event.isConfigCall]
    · simp [main, NewOAuthConfig, hcfg, logPrintf, World.record, hmode, Event.isConfigCall]

/-- In mode `secret`, with the config built, the calls of `main` into the flow are one
`adal.NewServicePrincipalToken`, with the config, `applicationID`, `applicationSecret`,
`resource` and one callback, and, if it succeeded, one `Refresh`. -/
theorem main_filter_isFlowCall (lib : Lib σ) (w : World σ) (oauthConfig : OAuthConfig)
    (s1 : σ)
    (hcfg : lib.NewOAuthConfig activeDirectoryEndpoint w.tenantID w.lib = (.ok oauthConfig, s1))
    (hmode : w.mode = clientSecretMode) :
    (main lib w).2.trace.filter Event.isFlowCall =
      w.trace.filter Event.isFlowCall ++
        Event.NewServicePrincipalToken oauthConfig w.applicationID w.applicationSecret
          w.resource 1 ::
        (match (lib.NewServicePrincipalToken oauthConfig w.applicationID w.applicationSecret
            w.resource 1 s1).1 with
          | .ok handle => [Event.Refresh handle]
          | .error _ => []) := by
  rw [main_world_of_secret lib w oauthConfig s1 hcfg hmode,
    acquireTokenClientSecretFlow_filter Event.isFlowCall lib oauthConfig _ _ _ _
      (main_callback_filter Event.isFlowCall
        (by intro e; cases e <;> simp [Event.isPersist, Event.isFlowCall]) lib)]
  simp only [List.length_singleton]
  cases (lib.NewServicePrincipalToken oauthConfig w.applicationID w.applicationSecret
    w.resource 1 s1).1 <;>
    simp [Event.isFlowCall]

/-- C10: when `init` succeeds, `mode` holds the trimmed flag and `resource`, `tenantID`,
`applicationID`, `applicationSecret` and `certificatePath` hold the flag values as given,
white space included. The program then calls `adal.NewOAuthConfig` once, with the tenant
as given, and in mode `secret`, with the config built, it calls
`adal.NewServicePrincipalToken` with the application id, secret and resource as given. -/
theorem init_leaves_values_untrimmed (lib : Lib σ) (args : Flags) (s : σ)
    (hinit : (init lib args (World.start s)).1 = .ok ()) :
    (init lib args (World.start s)).2.mode = TrimSpace (args.mode.getD "device") ∧
    (init lib args (World.start s)).2.resource = args.resource.getD "" ∧
    (init lib args (World.start s)).2.tenantID = args.tenantId.getD "" ∧
    (init lib args (World.start s)).2.applicationID = args.applicationId.getD "" ∧
    (init lib args (World.start s)).2.applicationSecret = args.secret.getD "" ∧
    (init lib args (World.start s)).2.certificatePath = args.certificatePath.getD "" ∧
    (program lib args s).2.trace.filter Event.isConfigCall =
      [Event.NewOAuthConfig activeDirectoryEndpoint (args.tenantId.getD "")] ∧
    (TrimSpace (args.mode.getD "device") = clientSecretMode →
      ∀ oauthConfig s2,
        lib.NewOAuthConfig activeDirectoryEndpoint (args.tenantId.getD "")
          (lib.userCurrent s).2 = (.ok oauthConfig, s2) →
        ∃ rest, (program lib args s).2.trace.filter Event.isFlowCall =
          Event.NewServicePrincipalToken oauthConfig (args.applicationId.getD "")
            (args.secret.getD "") (args.resource.getD "") 1 :: rest) := by
  rcases huser : lib.userCurrent s with ⟨err | homeDir, s1⟩
  · rw [init_of_user_error lib args s err s1 huser] at hinit
    simp at hinit
  · have hw := init_of_user_ok lib args s homeDir s1 huser
    have hprog : program lib args s = main lib (init lib args (World.start s)).2 := by
      unfold program
      generalize init lib args (World.start s) = r at hinit
      obtain ⟨r1, r2⟩ := r
      simp only at hinit
      rw [hinit]
    have hw2 : (init lib args (World.start s)).2 =
        ⟨TrimSpace (args.mode.getD "device"), args.resource.getD "", args.tenantId.getD "",
         args.applicationId.getD "", args.secret.getD "", args.certificatePath.getD "",
         args.tokenCachePath.getD (homeDir ++ "/.adal/accessToken.json"), s1,
         [Event.userCurrent]⟩ := by
      rw [hw]
    refine ⟨by rw [hw2], by rw [hw2], by rw [hw2], by rw [hw2], by rw [hw2], by rw [hw2],
      ?_, ?_⟩
    · rw [hprog, main_filter_isConfigCall, hw2]
      rfl
    · intro hmode oauthConfig s2 hcfg
      rw [hprog, hw2]
      refine ⟨_, main_filter_isFlowCall lib _ oauthConfig s2 hcfg hmode⟩

/-- The witness of C10: with white space around every value, `init` succeeds and the
tenant ` t1 ` reaches `adal.NewOAuthConfig` untrimmed. -/
theorem init_leaves_values_untrimmed_witness :
    (init sampleLib paddedFlags (World.start ())).2.mode = "secret" ∧
    (init sampleLib paddedFlags (World.start ())).2.tenantID = " t1 " ∧
    (program sampleLib paddedFlags ()).2.trace.filter Event.isConfigCall =
      [Event.NewOAuthConfig activeDirectoryEndpoint " t1 "] ∧
    ∃ rest, (program sampleLib paddedFlags ()).2.trace.filter Event.isFlowCall =
      Event.NewServicePrincipalToken paddedConfig " a1 " " s1 " " https://example/ " 1 ::
        rest :=
  ⟨(init_leaves_values_untrimmed sampleLib paddedFlags () (by decide)).1,
   (init_leaves_values_untrimmed sampleLib paddedFlags () (by decide)).2.2.1,
   (init_leaves_values_untrimmed sampleLib paddedFlags () (by decide)).2.2.2.2.2.2.1,
   (init_leaves_values_untrimmed sampleLib paddedFlags () (by decide)).2.2.2.2.2.2.2
     (by decide) paddedConfig () (by decide)⟩

/-! ## The example scenario, evaluated -/

/-- The witness of C8: in the example scenario the calls into the flow are one
construction and one `Refresh` of the controller it returned. -/
theorem acquireTokenClientSecretFlow_no_retry_witness :
    (acquireTokenClientSecretFlow sampleLib sampleConfig "a1" "s1" "https://example/"
      [fun token => saveToken sampleLib token] sampleWorld).2.trace.filter Event.isFlowCall =
      [Event.NewServicePrincipalToken sampleConfig "a1" "s1" "https://example/" 1,
       Event.Refresh 1] :=
  ((acquireTokenClientSecretFlow_no_retry sampleLib sampleConfig "a1" "s1" "https://example/"
      [fun token => saveToken sampleLib token] sampleWorld).2 1 () rfl).2.2
    (main_callback_filter Event.isFlowCall
      (by intro e; cases e <;> simp [Event.isPersist, Event.isFlowCall]) sampleLib)

/-- The witness of C9: when the directory config cannot be built, `main` panics after the
one call `adal.NewOAuthConfig`. -/
theorem main_requires_config_witness :
    (main failingLib sampleWorld).1 = .error (.panic ⟨"invalid tenant"⟩) ∧
    (main failingLib sampleWorld).2.trace =
      [Event.NewOAuthConfig activeDirectoryEndpoint "t1"] :=
  ⟨((main_requires_config failingLib sampleWorld).1 ⟨"invalid tenant"⟩ () rfl).1,
   ((main_requires_config failingLib sampleWorld).1 ⟨"invalid tenant"⟩ () rfl).2.1⟩

/-- The example scenario of the specification: mode `secret`, tenant `t1`, application
`a1`, secret `s1`, resource `https://example/`. The program returns, and the persistence
callback runs once, with the token the provider granted. -/
theorem program_sample_run :
    (program sampleLib sampleFlags ()).1 = .ok () ∧
    (program sampleLib sampleFlags ()).2.trace =
      [Event.userCurrent,
       Event.NewOAuthConfig "https://login.microsoftonline.com/" "t1",
       Event.logPrintf "Authenticating with mode 'secret'\n",
       Event.acquireTokenClientSecretFlow sampleConfig "a1" "s1" "https://example/" 1,
       Event.NewServicePrincipalToken sampleConfig "a1" "s1" "https://example/" 1,
       Event.Refresh 1,
       Event.saveToken sampleToken,
       Event.SaveToken "/tmp/accessToken.json" 0o600 sampleToken,
       Event.logPrintf "Acquired token was saved in '/tmp/accessToken.json' file\n"] := by
  decide

end Adal
